import Mathlib

/-!
Shallow embedding of the displacement finite element
(src/include/uelDisplacement.h, template class UelDisplacement<nDim, nNodes>).

Scalars are modelled as rationals.  External collaborators (the polymorphic
material model, the Voigt/tangent reduction utilities of the bft math library,
the iso-parametric geometry primitives, the boundary sub-element) are modelled
as abstract function records that the element definitions are parametrized
over; the element's own code is translated statement by statement.
-/

namespace UelDisp

/-- a fixed-size vector of rationals, modelling an Eigen vector of doubles. -/
abbrev Vec (n : ℕ) := Fin n → ℚ

/-- a fixed-size matrix of rationals, modelling an Eigen matrix of doubles. -/
abbrev Mat (m n : ℕ) := Fin m → Fin n → ℚ

/-- matrix-vector product. -/
def mulMV {m n : ℕ} (A : Mat m n) (x : Vec n) : Vec m :=
  fun i => ∑ j, A i j * x j

/-- matrix transpose. -/
def transposeM {m n : ℕ} (A : Mat m n) : Mat n m :=
  fun i j => A j i

/-- matrix-matrix product. -/
def mulMM {m n k : ℕ} (A : Mat m n) (B2 : Mat n k) : Mat m k :=
  fun i j => ∑ a, A i a * B2 a j

/-- scalar multiple of a vector. -/
def smulV {n : ℕ} (c : ℚ) (x : Vec n) : Vec n :=
  fun i => c * x i

/-- the section type of the element (uelDisplacement.h, enum SectionType). -/
inductive SectionType
  | UniaxialStress
  | PlaneStress
  | PlaneStrain
  | Solid
deriving DecidableEq

/-- Modelled from the spec: the reduced Voigt width used by the geometry base
(ParentGeometryElement::VoigtSize, bftGeometryElement.h, which is outside
src/): 1 component in 1D, 3 in-plane components in 2D, 6 in 3D. -/
@[reducible] def voigtSize : ℕ → ℕ
  | 1 => 1
  | 2 => 3
  | _ => 6

namespace Vgt

/-- Modelled from the spec: Vgt::VoigtSize (bftVoigt.h, outside src/), the
full 3D Voigt width 6 used for the stored stress/strain state. -/
def VoigtSize : ℕ := 6

end Vgt

/-- the data of one material instance that the element observes through the
BftMaterialHypoElastic interface (bftMaterialHypoElastic.h, external):
its required state-variable count, its currently assigned state-variable
count, and the characteristic element length it was last sent. -/
structure Material where
  requiredStateVars : ℕ
  nStateVars : ℕ
  charLen : Option ℚ
deriving DecidableEq

/-- the abstract constitutive response of a material (external interface,
spec section 4.2).  Each entry point maps (stress, strain increment in full
6-component Voigt form, pNewDT) to (updated stress, 6x6 tangent, pNewDT);
the time and dT arguments of the C++ interface are fixed over a kernel call
and are folded into the abstract functions. -/
structure MaterialResponse where
  computeUniaxialStress : Vec 6 → Vec 6 → ℚ → Vec 6 × Mat 6 6 × ℚ
  computePlaneStress : Vec 6 → Vec 6 → ℚ → Vec 6 × Mat 6 6 × ℚ
  computeStress : Vec 6 → Vec 6 → ℚ → Vec 6 × Mat 6 6 × ℚ

/-- the abstract Voigt reduction utilities (bft::mechanics and bft::Vgt,
external to src/). -/
structure MechOps where
  getUniaxialStressTangent : Mat 6 6 → Mat (voigtSize 1) (voigtSize 1)
  getPlaneStressTangent : Mat 6 6 → Mat (voigtSize 2) (voigtSize 2)
  getPlaneStrainTangent : Mat 6 6 → Mat (voigtSize 2) (voigtSize 2)
  planeVoigtToVoigt : Vec (voigtSize 2) → Vec 6
  voigtToPlaneVoigt : Vec 6 → Vec (voigtSize 2)

/-- the abstract scalar math helpers used by the element (std::sqrt,
std::cbrt and bft::Math::linearInterpolation, all external to src/).
linearInterpolation x x0 x1 y0 y1 interpolates at x between (x0, y0)
and (x1, y1). -/
structure MathOps where
  sqrt : ℚ → ℚ
  cbrt : ℚ → ℚ
  linearInterpolation : ℚ → ℚ → ℚ → ℚ → ℚ → ℚ

/-- the abstract iso-parametric geometry primitives of the geometry base
class (bftGeometryElement.h, external to src/), closed over the element's
nodal coordinates.  coordAt models NB(N(xi)) * coordinates, the physical
coordinate of a Gauss point. -/
structure GeoOps (nDim nNodes : ℕ) where
  dNdXi : Vec nDim → Mat nDim nNodes
  jacobian : Mat nDim nNodes → Mat nDim nDim
  inverse : Mat nDim nDim → Mat nDim nDim
  det : Mat nDim nDim → ℚ
  dNdX : Mat nDim nNodes → Mat nDim nDim → Mat nDim nNodes
  Bop : Mat nDim nNodes → Mat (voigtSize nDim) (nNodes * nDim)
  coordAt : Vec nDim → Vec nDim

/-- the per-Gauss-point geometry cache (struct GaussPt::Geometry). -/
structure Geometry (nDim nNodes : ℕ) where
  J : Mat nDim nDim
  JInv : Mat nDim nDim
  detJ : ℚ
  dNdXi : Mat nDim nNodes
  dNdX : Mat nDim nNodes
  B : Mat (voigtSize nDim) (nNodes * nDim)
  intVol : ℚ
deriving DecidableEq

/-- one Gauss point of the element (struct GaussPt). -/
structure GaussPt (nDim nNodes : ℕ) where
  xi : Vec nDim
  weight : ℚ
  material : Option Material
  stress : Vec 6
  strain : Vec 6
  geometry : Geometry nDim nNodes
deriving DecidableEq

/-- GaussPt::nRequiredStateVars = 6 + 6 (stress and strain slots). -/
def GaussPt.nRequiredStateVars : ℕ := 6 + 6

/-- the loop-carried state of computeYourself: the caller-visible residual Pe
and tangent Ke (accumulated in place through Eigen maps), the locals S and C
declared before the Gauss-point loop (so their contents persist between
iterations), and the by-reference pNewDT. -/
structure KernelState (nDim nNodes : ℕ) where
  Pe : Vec (nNodes * nDim)
  Ke : Mat (nNodes * nDim) (nNodes * nDim)
  S : Vec (voigtSize nDim)
  C : Mat (voigtSize nDim) (voigtSize nDim)
  p : ℚ
deriving DecidableEq

/-- Ke += B^T * C * B * intVol (uelDisplacement.h line 368). -/
def accumKe {v d : ℕ} (B2 : Mat v d) (C : Mat v v) (vol : ℚ) (Ke : Mat d d) :
    Mat d d :=
  fun i j => Ke i j + mulMM (mulMM (transposeM B2) C) B2 i j * vol

/-- Pe -= B^T * S * intVol (uelDisplacement.h line 369). -/
def accumPe {v d : ℕ} (B2 : Mat v d) (S : Vec v) (vol : ℚ) (Pe : Vec d) :
    Vec d :=
  fun i => Pe i - mulMV (transposeM B2) S i * vol

/-- the expansion dE6 << dE, 0, 0, 0, 0, 0 of the 1-component strain
increment to full Voigt form (uelDisplacement.h lines 299-300). -/
def expandUniaxial (dE : Vec (voigtSize 1)) : Vec 6 :=
  fun i => if (i : ℕ) = 0 then dE ⟨0, by decide⟩ else 0

/-- the loop body of computeYourself for nDim == 1 (uelDisplacement.h lines
294-311): dE = B * dQ, expand dE6 << dE, 0, 0, 0, 0, 0, call
computeUniaxialStress (which updates the stress in place), reduce the 6x6
tangent through getUniaxialStressTangent.  Neither S nor the stored strain is
updated in this branch. -/
def gpStep1 {nNodes : ℕ} (mat : MaterialResponse) (ops : MechOps)
    (dQ : Vec (nNodes * 1)) (gp : GaussPt 1 nNodes) (S : Vec (voigtSize 1))
    (_C : Mat (voigtSize 1) (voigtSize 1)) (p : ℚ) :
    GaussPt 1 nNodes × Vec (voigtSize 1) × Mat (voigtSize 1) (voigtSize 1) × ℚ :=
  let dE : Vec (voigtSize 1) := mulMV gp.geometry.B dQ
  let dE6 : Vec 6 := expandUniaxial dE
  let r := mat.computeUniaxialStress gp.stress dE6 p
  ({ gp with stress := r.1 }, S, ops.getUniaxialStressTangent r.2.1, r.2.2)

/-- the loop body of computeYourself for nDim == 2 (uelDisplacement.h lines
313-346): dE = B * dQ, dE6 = planeVoigtToVoigt dE, dispatch on the section
type (PlaneStress -> computePlaneStress with plane-stress tangent reduction,
PlaneStrain -> computeStress with plane-strain tangent reduction, any other
section leaves stress, C and pNewDT untouched), then S =
voigtToPlaneVoigt(stress) and strain += dE6. -/
def gpStep2 {nNodes : ℕ} (sec : SectionType) (mat : MaterialResponse)
    (ops : MechOps) (dQ : Vec (nNodes * 2)) (gp : GaussPt 2 nNodes)
    (_S : Vec (voigtSize 2)) (C : Mat (voigtSize 2) (voigtSize 2)) (p : ℚ) :
    GaussPt 2 nNodes × Vec (voigtSize 2) × Mat (voigtSize 2) (voigtSize 2) × ℚ :=
  let dE : Vec (voigtSize 2) := mulMV gp.geometry.B dQ
  let dE6 : Vec 6 := ops.planeVoigtToVoigt dE
  let r : Vec 6 × Mat (voigtSize 2) (voigtSize 2) × ℚ :=
    if sec = SectionType.PlaneStress then
      let m := mat.computePlaneStress gp.stress dE6 p
      (m.1, ops.getPlaneStressTangent m.2.1, m.2.2)
    else if sec = SectionType.PlaneStrain then
      let m := mat.computeStress gp.stress dE6 p
      (m.1, ops.getPlaneStrainTangent m.2.1, m.2.2)
    else
      (gp.stress, C, p)
  ({ gp with stress := r.1, strain := gp.strain + dE6 },
    ops.voigtToPlaneVoigt r.1, r.2.1, r.2.2)

/-- the loop body of computeYourself for nDim == 3 (uelDisplacement.h lines
348-363): dE = B * dQ, for the Solid section call computeStress directly on
the full Voigt increment (any other section leaves stress, C and pNewDT
untouched), then S = stress and strain += dE. -/
def gpStep3 {nNodes : ℕ} (sec : SectionType) (mat : MaterialResponse)
    (dQ : Vec (nNodes * 3)) (gp : GaussPt 3 nNodes) (_S : Vec (voigtSize 3))
    (C : Mat (voigtSize 3) (voigtSize 3)) (p : ℚ) :
    GaussPt 3 nNodes × Vec (voigtSize 3) × Mat (voigtSize 3) (voigtSize 3) × ℚ :=
  let dE : Vec (voigtSize 3) := mulMV gp.geometry.B dQ
  let r : Vec 6 × Mat 6 6 × ℚ :=
    if sec = SectionType.Solid then mat.computeStress gp.stress dE p
    else (gp.stress, C, p)
  ({ gp with stress := r.1, strain := gp.strain + dE }, r.1, r.2.1, r.2.2)

/-- the Gauss-point loop of computeYourself (uelDisplacement.h lines 292-370),
generic in the per-point body: run the body, then, if pNewDT < 1.0, return
immediately (the remaining Gauss points are not visited and Pe and Ke are not
touched in this iteration); otherwise accumulate Ke += B^T C B intVol and
Pe -= B^T S intVol and continue with the next Gauss point. -/
def kernelLoop {nDim nNodes : ℕ}
    (step : GaussPt nDim nNodes → Vec (voigtSize nDim) →
      Mat (voigtSize nDim) (voigtSize nDim) → ℚ →
      GaussPt nDim nNodes × Vec (voigtSize nDim) ×
        Mat (voigtSize nDim) (voigtSize nDim) × ℚ) :
    List (GaussPt nDim nNodes) → KernelState nDim nNodes →
      List (GaussPt nDim nNodes) × KernelState nDim nNodes
  | [], st => ([], st)
  | gp :: rest, st =>
    let r := step gp st.S st.C st.p
    if r.2.2.2 < 1 then
      (r.1 :: rest, { st with S := r.2.1, C := r.2.2.1, p := r.2.2.2 })
    else
      let st2 : KernelState nDim nNodes :=
        { Pe := accumPe gp.geometry.B r.2.1 gp.geometry.intVol st.Pe
          Ke := accumKe gp.geometry.B r.2.2.1 gp.geometry.intVol st.Ke
          S := r.2.1
          C := r.2.2.1
          p := r.2.2.2 }
      let out := kernelLoop step rest st2
      (r.1 :: out.1, out.2)

/-- computeYourself of the nDim == 1 instantiation.  QTotal is mapped by the
source but never read. -/
def computeYourself1 {nNodes : ℕ} (mat : MaterialResponse) (ops : MechOps)
    (_QTotal dQ : Vec (nNodes * 1)) (gps : List (GaussPt 1 nNodes))
    (st : KernelState 1 nNodes) :
    List (GaussPt 1 nNodes) × KernelState 1 nNodes :=
  kernelLoop (gpStep1 mat ops dQ) gps st

/-- computeYourself of the nDim == 2 instantiation. -/
def computeYourself2 {nNodes : ℕ} (sec : SectionType) (mat : MaterialResponse)
    (ops : MechOps) (_QTotal dQ : Vec (nNodes * 2))
    (gps : List (GaussPt 2 nNodes)) (st : KernelState 2 nNodes) :
    List (GaussPt 2 nNodes) × KernelState 2 nNodes :=
  kernelLoop (gpStep2 sec mat ops dQ) gps st

/-- computeYourself of the nDim == 3 instantiation. -/
def computeYourself3 {nNodes : ℕ} (sec : SectionType) (mat : MaterialResponse)
    (_QTotal dQ : Vec (nNodes * 3)) (gps : List (GaussPt 3 nNodes))
    (st : KernelState 3 nNodes) :
    List (GaussPt 3 nNodes) × KernelState 3 nNodes :=
  kernelLoop (gpStep3 sec mat dQ) gps st

/-- initializeYourself (uelDisplacement.h lines 236-271): for every Gauss
point compute the one-time geometry cache dNdXi, J, JInv, detJ, dNdX, B, then
the integrated volume and the characteristic element length according to the
section type; the characteristic length is forwarded to the Gauss point's
material via setCharacteristicElementLength.  elementProperties[0] is the
thickness (plane sections) or the cross-section (uniaxial section). -/
def initializeYourself {nDim nNodes : ℕ} (geo : GeoOps nDim nNodes)
    (mops : MathOps) (sec : SectionType) (props : ℕ → ℚ)
    (gps : List (GaussPt nDim nNodes)) : List (GaussPt nDim nNodes) :=
  gps.map fun gp =>
    let dndxi := geo.dNdXi gp.xi
    let J := geo.jacobian dndxi
    let JInv := geo.inverse J
    let detJ := geo.det J
    let dndx := geo.dNdX dndxi JInv
    let Bm := geo.Bop dndx
    match sec with
    | SectionType.Solid =>
      { gp with
        geometry := ⟨J, JInv, detJ, dndxi, dndx, Bm, gp.weight * detJ⟩
        material := gp.material.map fun m =>
          { m with charLen := some (mops.cbrt (8 * detJ)) } }
    | SectionType.PlaneStrain | SectionType.PlaneStress =>
      let thickness := props 0
      { gp with
        geometry := ⟨J, JInv, detJ, dndxi, dndx, Bm, gp.weight * detJ * thickness⟩
        material := gp.material.map fun m =>
          { m with charLen := some (mops.sqrt (4 * detJ)) } }
    | SectionType.UniaxialStress =>
      let crossSection := props 0
      { gp with
        geometry := ⟨J, JInv, detJ, dndxi, dndx, Bm, gp.weight * detJ * crossSection⟩
        material := gp.material.map fun m =>
          { m with charLen := some (2 * detJ) } }

/-- Modelled from the spec: the initial-condition state-type enumeration of
the element base class (bftElement.h, outside src/) - GeostaticStress plus
the other state types that setInitialConditions ignores. -/
inductive StateTypes
  | GeostaticStress
  | OtherState (code : ℕ)
deriving DecidableEq

/-- setInitialConditions (uelDisplacement.h lines 373-399): for
GeostaticStress and nDim > 1 (a compile-time branch), every Gauss point gets
stress(1) = linearInterpolation(coordAtGauss[1], values[1], values[3],
values[0], values[2]), then stress(0) = values[4] * stress(1) and
stress(2) = values[5] * stress(1); every other case falls through to the
default of the switch and leaves the element unchanged. -/
def setInitialConditions {nDim nNodes : ℕ} (geo : GeoOps nDim nNodes)
    (mops : MathOps) (state : StateTypes) (values : Fin 6 → ℚ)
    (gps : List (GaussPt nDim nNodes)) : List (GaussPt nDim nNodes) :=
  match state with
  | StateTypes.GeostaticStress =>
    if h : 1 < nDim then
      gps.map fun gp =>
        let coordAtGauss := geo.coordAt gp.xi
        let sigY1 := values 0
        let sigY2 := values 2
        let y1 := values 1
        let y2 := values 3
        let sy := mops.linearInterpolation (coordAtGauss ⟨1, h⟩) y1 y2 sigY1 sigY2
        { gp with stress := fun i =>
            if (i : ℕ) = 1 then sy
            else if (i : ℕ) = 0 then values 4 * sy
            else if (i : ℕ) = 2 then values 5 * sy
            else gp.stress i }
    else gps
  | _ => gps

/-- Modelled from the spec: the distributed-load type enumeration of the
element base class (bftElement.h, outside src/) - Pressure plus the other
load types that computeDistributedLoad rejects. -/
inductive DistributedLoadTypes
  | Pressure
  | OtherLoad (code : ℕ)
deriving DecidableEq

/-- the abstract boundary sub-element (bftFiniteElement.h, outside src/),
closed over the element shape and nodal coordinates; both operations take the
element face the boundary element was constructed for. -/
structure BoundaryOps (nDim nNodes bsize : ℕ) where
  computeNormalLoadVector : ℕ → Vec bsize
  assembleIntoParentVector : ℕ → Vec bsize → Vec (nNodes * nDim) →
    Vec (nNodes * nDim)

/-- the message of the std::invalid_argument thrown by computeDistributedLoad
for an unsupported load type. -/
def invalidLoadMsg : String := "Invalid Load Type specified"

/-- computeDistributedLoad (uelDisplacement.h lines 401-433): for Pressure,
Pk = -load[0] * boundary normal load vector, scaled by elementProperties[0]
(the thickness) when nDim == 2, assembled into the parent load vector P; for
any other load type a std::invalid_argument is thrown before P is touched
(modelled by returning P unchanged together with the exception message). -/
def computeDistributedLoad {nDim nNodes bsize : ℕ}
    (bops : BoundaryOps nDim nNodes bsize) (props : ℕ → ℚ)
    (loadType : DistributedLoadTypes) (P : Vec (nNodes * nDim))
    (elementFace : ℕ) (load : ℕ → ℚ) :
    Vec (nNodes * nDim) × Option String :=
  match loadType with
  | DistributedLoadTypes.Pressure =>
    let p := load 0
    let Pk0 := smulV (-p) (bops.computeNormalLoadVector elementFace)
    let Pk := if nDim = 2 then smulV (props 0) Pk0 else Pk0
    (bops.assembleIntoParentVector elementFace Pk P, none)
  | _ => (P, some invalidLoadMsg)

/-- the body of the loop of assignProperty(const BftMaterialSection&)
(uelDisplacement.h lines 221-233): gaussPts[i].material is created by the
material factory, which receives the per-Gauss-point index i (the factory is
abstract; materialCode, the material properties and the element label are
folded into it). -/
def assignMaterials {nDim nNodes : ℕ} (factory : ℕ → Material) :
    ℕ → List (GaussPt nDim nNodes) → List (GaussPt nDim nNodes)
  | _, [] => []
  | i, gp :: rest =>
    { gp with material := some (factory i) } :: assignMaterials factory (i + 1) rest

/-- assignProperty(const BftMaterialSection&): instantiate one material per
Gauss point, indexed from 0. -/
def assignPropertyMaterialSection {nDim nNodes : ℕ} (factory : ℕ → Material)
    (gps : List (GaussPt nDim nNodes)) : List (GaussPt nDim nNodes) :=
  assignMaterials factory 0 gps

/-- getNumberOfRequiredStateVars (uelDisplacement.h lines 157-161):
(gaussPts[0].material->getNumberOfRequiredStateVars() +
GaussPt::nRequiredStateVars) * gaussPts.size().  The dereference of
gaussPts[0] and of its material are modelled with Option. -/
def getNumberOfRequiredStateVars {nDim nNodes : ℕ}
    (gps : List (GaussPt nDim nNodes)) : Option ℕ :=
  (gps[0]?).bind fun gp =>
    gp.material.map fun m =>
      (m.requiredStateVars + GaussPt.nRequiredStateVars) * gps.length

/-- the offsets into the caller-owned state-variable buffer that one Gauss
point's views are re-bound to by assignStateVars: the material block, its
length, and the 6-slot stress and strain windows. -/
structure StateBinding where
  matOff : ℕ
  matLen : ℕ
  stressOff : ℕ
  strainOff : ℕ
deriving DecidableEq

/-- assignStateVars (uelDisplacement.h lines 189-212): nStateVarsMaterial =
nStateVars / gaussPts.size() - GaussPt::nRequiredStateVars (integer division,
no validity check - the comment in the source says the element provides as
many state vars to the material as it can); Gauss point i's material block
starts at i * (nStateVarsMaterial + 12), its stress view at
nStateVarsMaterial + i * (nStateVarsMaterial + 12) and its strain view six
doubles later. -/
def assignStateVars (gpCount nStateVars : ℕ) : List StateBinding :=
  let nStateVarsMaterial := nStateVars / gpCount - GaussPt.nRequiredStateVars
  (List.range gpCount).map fun i =>
    { matOff := i * (nStateVarsMaterial + GaussPt.nRequiredStateVars)
      matLen := nStateVarsMaterial
      stressOff := nStateVarsMaterial + i * (nStateVarsMaterial + GaussPt.nRequiredStateVars)
      strainOff := nStateVarsMaterial + i * (nStateVarsMaterial + GaussPt.nRequiredStateVars) + 6 }

/-- getPermanentResultPointer (uelDisplacement.h lines 123-139), modelled at
the level of buffer offsets: for result names stress and strain it reports
the Gauss point's stress/strain window with length Vgt::VoigtSize, for sdv
the material block with the material's assigned state-var count, and any
other name is delegated to the material's own result lookup. -/
def getPermanentResultPointer (bindings : List StateBinding)
    (matLookup : String → Option (ℕ × ℕ)) (resultName : String)
    (gaussPt : ℕ) : Option (ℕ × ℕ) :=
  (bindings[gaussPt]?).bind fun b =>
    if resultName = "stress" then some (b.stressOff, Vgt.VoigtSize)
    else if resultName = "strain" then some (b.strainOff, Vgt.VoigtSize)
    else if resultName = "sdv" then some (b.matOff, b.matLen)
    else matLookup resultName

/-- the result name of the stress query. -/
def stressName : String := "stress"

/-- the result name of the strain query. -/
def strainName : String := "strain"

/-- write six consecutive values into the state buffer starting at a given
offset (the caller-side write of a stress or strain record into the
persistent buffer). -/
def writeSlots (buffer : ℕ → ℚ) (off : ℕ) (xs : Vec 6) : ℕ → ℚ :=
  fun k => if h : off ≤ k ∧ k < off + 6 then xs ⟨k - off, by omega⟩ else buffer k

/-- the 6x6 identity matrix, used as a concrete material tangent. -/
def idMat6 : Mat 6 6 := fun i j => if i = j then 1 else 0

/-- a concrete material record used by the witnesses. -/
def testMaterial : Material :=
  { requiredStateVars := 5, nStateVars := 0, charLen := none }

/-- a concrete material response used by witnesses and counterexamples: the
stress is updated to stress + dE6, and computeStress requests a cut-back
(pNewDT = 1/2) exactly when the incoming stress(0) is nonzero. -/
def testResponse : MaterialResponse :=
  { computeUniaxialStress := fun s d p => (s + d, fun _ _ => 0, p)
    computePlaneStress := fun s d p => (s + d, fun _ _ => 0, p)
    computeStress := fun s d p => (s + d, idMat6, if s 0 = 0 then p else 0) }

/-- concrete Voigt reduction utilities used by witnesses. -/
def testMech : MechOps :=
  { getUniaxialStressTangent := fun c => fun _ _ => c 0 0
    getPlaneStressTangent := fun c => fun i j => c (Fin.castLE (by decide) i) (Fin.castLE (by decide) j)
    getPlaneStrainTangent := fun c => fun i j => c (Fin.castLE (by decide) i) (Fin.castLE (by decide) j)
    planeVoigtToVoigt := fun v => fun i => if h : (i : ℕ) < voigtSize 2 then v ⟨i, h⟩ else 0
    voigtToPlaneVoigt := fun v => fun i => v (Fin.castLE (by decide) i) }

/-- concrete scalar math helpers used by witnesses. -/
def testMath : MathOps :=
  { sqrt := id
    cbrt := id
    linearInterpolation := fun x x0 x1 y0 y1 => y0 + (y1 - y0) * (x - x0) / (x1 - x0) }

/-- a Geometry 3 1 fixture with zero B. -/
def geomZ3 : Geometry 3 1 :=
  { J := fun _ _ => 0, JInv := fun _ _ => 0, detJ := 1, dNdXi := fun _ _ => 0
    dNdX := fun _ _ => 0, B := fun _ _ => 0, intVol := 1 }

/-- a Geometry 3 1 fixture with all-ones B. -/
def geomO3 : Geometry 3 1 := { geomZ3 with B := fun _ _ => 1 }

/-- a Geometry 1 1 fixture with all-ones B. -/
def geomO1 : Geometry 1 1 :=
  { J := fun _ _ => 0, JInv := fun _ _ => 0, detJ := 1, dNdXi := fun _ _ => 0
    dNdX := fun _ _ => 0, B := fun _ _ => 1, intVol := 1 }

/-- a Geometry 2 1 fixture with zero B. -/
def geomZ2 : Geometry 2 1 :=
  { J := fun _ _ => 0, JInv := fun _ _ => 0, detJ := 1, dNdXi := fun _ _ => 0
    dNdX := fun _ _ => 0, B := fun _ _ => 0, intVol := 1 }

/-- a GaussPt 3 1 fixture with zero stress and zero B. -/
def gpZ3 : GaussPt 3 1 :=
  { xi := fun _ => 0, weight := 1, material := some testMaterial
    stress := fun _ => 0, strain := fun _ => 0, geometry := geomZ3 }

/-- a GaussPt 3 1 fixture with stress(0) = 1 (triggers the cut-back of
testResponse.computeStress) and zero B. -/
def gpZ3b : GaussPt 3 1 :=
  { gpZ3 with stress := fun i => if (i : ℕ) = 0 then 1 else 0 }

/-- a GaussPt 3 1 fixture with zero stress and all-ones B. -/
def gpO3 : GaussPt 3 1 := { gpZ3 with geometry := geomO3 }

/-- a GaussPt 3 1 fixture with stress(0) = 1 and all-ones B. -/
def gpO3b : GaussPt 3 1 := { gpZ3b with geometry := geomO3 }

/-- a GaussPt 1 1 fixture with zero state and all-ones B. -/
def gpO1 : GaussPt 1 1 :=
  { xi := fun _ => 0, weight := 1, material := some testMaterial
    stress := fun _ => 0, strain := fun _ => 0, geometry := geomO1 }

/-- a GaussPt 2 1 fixture with zero state and zero B. -/
def gpZ2 : GaussPt 2 1 :=
  { xi := fun _ => 0, weight := 1, material := some testMaterial
    stress := fun _ => 0, strain := fun _ => 0, geometry := geomZ2 }

/-- a zeroed kernel state for nDim = 3, nNodes = 1, with incoming pNewDT = 2. -/
def st3 : KernelState 3 1 :=
  { Pe := fun _ => 0, Ke := fun _ _ => 0, S := fun _ => 0, C := fun _ _ => 0, p := 2 }

/-- a zeroed kernel state for nDim = 1, nNodes = 1, with incoming pNewDT = 2. -/
def st1 : KernelState 1 1 :=
  { Pe := fun _ => 0, Ke := fun _ _ => 0, S := fun _ => 0, C := fun _ _ => 0, p := 2 }

/-- a zeroed kernel state for nDim = 2, nNodes = 1, with incoming pNewDT = 2. -/
def st2 : KernelState 2 1 :=
  { Pe := fun _ => 0, Ke := fun _ _ => 0, S := fun _ => 0, C := fun _ _ => 0, p := 2 }

lemma kernelLoop_nil {nDim nNodes : ℕ}
    (step : GaussPt nDim nNodes → Vec (voigtSize nDim) →
      Mat (voigtSize nDim) (voigtSize nDim) → ℚ →
      GaussPt nDim nNodes × Vec (voigtSize nDim) ×
        Mat (voigtSize nDim) (voigtSize nDim) × ℚ)
    (st : KernelState nDim nNodes) : kernelLoop step [] st = ([], st) := rfl

lemma kernelLoop_cons_cut {nDim nNodes : ℕ}
    (step : GaussPt nDim nNodes → Vec (voigtSize nDim) →
      Mat (voigtSize nDim) (voigtSize nDim) → ℚ →
      GaussPt nDim nNodes × Vec (voigtSize nDim) ×
        Mat (voigtSize nDim) (voigtSize nDim) × ℚ)
    (gp : GaussPt nDim nNodes) (rest : List (GaussPt nDim nNodes))
    (st : KernelState nDim nNodes) (g' : GaussPt nDim nNodes)
    (S' : Vec (voigtSize nDim)) (C' : Mat (voigtSize nDim) (voigtSize nDim))
    (p' : ℚ) (hr : step gp st.S st.C st.p = (g', S', C', p')) (hcut : p' < 1) :
    kernelLoop step (gp :: rest) st =
      (g' :: rest, { st with S := S', C := C', p := p' }) := by
  simp only [kernelLoop, hr]
  simp [hcut]

lemma kernelLoop_cons_nocut {nDim nNodes : ℕ}
    (step : GaussPt nDim nNodes → Vec (voigtSize nDim) →
      Mat (voigtSize nDim) (voigtSize nDim) → ℚ →
      GaussPt nDim nNodes × Vec (voigtSize nDim) ×
        Mat (voigtSize nDim) (voigtSize nDim) × ℚ)
    (gp : GaussPt nDim nNodes) (rest : List (GaussPt nDim nNodes))
    (st : KernelState nDim nNodes) (g' : GaussPt nDim nNodes)
    (S' : Vec (voigtSize nDim)) (C' : Mat (voigtSize nDim) (voigtSize nDim))
    (p' : ℚ) (hr : step gp st.S st.C st.p = (g', S', C', p'))
    (hcut : ¬ p' < 1) :
    kernelLoop step (gp :: rest) st =
      ((g' :: (kernelLoop step rest
        { Pe := accumPe gp.geometry.B S' gp.geometry.intVol st.Pe
          Ke := accumKe gp.geometry.B C' gp.geometry.intVol st.Ke
          S := S', C := C', p := p' }).1),
       (kernelLoop step rest
        { Pe := accumPe gp.geometry.B S' gp.geometry.intVol st.Pe
          Ke := accumKe gp.geometry.B C' gp.geometry.intVol st.Ke
          S := S', C := C', p := p' }).2) := by
  simp only [kernelLoop, hr]
  simp [hcut]

lemma kernelLoop_append {nDim nNodes : ℕ}
    (step : GaussPt nDim nNodes → Vec (voigtSize nDim) →
      Mat (voigtSize nDim) (voigtSize nDim) → ℚ →
      GaussPt nDim nNodes × Vec (voigtSize nDim) ×
        Mat (voigtSize nDim) (voigtSize nDim) × ℚ)
    (xs ys : List (GaussPt nDim nNodes)) (st : KernelState nDim nNodes)
    (h : ¬ (kernelLoop step xs st).2.p < 1) :
    kernelLoop step (xs ++ ys) st =
      ((kernelLoop step xs st).1 ++
        (kernelLoop step ys (kernelLoop step xs st).2).1,
       (kernelLoop step ys (kernelLoop step xs st).2).2) := by
  induction xs generalizing st with
  | nil => simp [kernelLoop]
  | cons x xs ih =>
    by_cases hcut : (step x st.S st.C st.p).2.2.2 < 1
    · exfalso
      apply h
      rw [kernelLoop_cons_cut step x xs st _ _ _ _ rfl hcut]
      exact hcut
    · rw [List.cons_append,
        kernelLoop_cons_nocut step x (xs ++ ys) st _ _ _ _ rfl hcut,
        kernelLoop_cons_nocut step x xs st _ _ _ _ rfl hcut]
      rw [kernelLoop_cons_nocut step x xs st _ _ _ _ rfl hcut] at h
      rw [ih _ h]
      simp

lemma kernelLoop_split {nDim nNodes : ℕ}
    (step : GaussPt nDim nNodes → Vec (voigtSize nDim) →
      Mat (voigtSize nDim) (voigtSize nDim) → ℚ →
      GaussPt nDim nNodes × Vec (voigtSize nDim) ×
        Mat (voigtSize nDim) (voigtSize nDim) × ℚ)
    (pre rest : List (GaussPt nDim nNodes)) (g g' : GaussPt nDim nNodes)
    (st st₁ : KernelState nDim nNodes) (gps₁ : List (GaussPt nDim nNodes))
    (S' : Vec (voigtSize nDim)) (C' : Mat (voigtSize nDim) (voigtSize nDim))
    (p' : ℚ)
    (ho : kernelLoop step pre st = (gps₁, st₁)) (hp : ¬ st₁.p < 1)
    (hr : step g st₁.S st₁.C st₁.p = (g', S', C', p')) (hcut : p' < 1) :
    kernelLoop step (pre ++ g :: rest) st =
      (gps₁ ++ g' :: rest, { st₁ with S := S', C := C', p := p' }) := by
  have h2 : ¬ (kernelLoop step pre st).2.p < 1 := by rw [ho]; exact hp
  rw [kernelLoop_append step pre (g :: rest) st h2, ho,
    kernelLoop_cons_cut step g rest st₁ g' S' C' p' hr hcut]

lemma sum_const_fin (n : ℕ) (c : ℚ) : (∑ _j : Fin n, c) = n * c := by
  simp [Finset.sum_const, Finset.card_univ, nsmul_eq_mul]

lemma mulMV_ones : mulMV geomO3.B ((fun _ => 1) : Vec (1 * 3)) = fun _ => 3 := by
  funext a
  simp only [mulMV, geomO3, geomZ3, one_mul]
  rw [sum_const_fin]
  norm_num

/-- Claim C1, counterexample: with two Gauss points where the material
accepts the first one (pNewDT stays 2) and requests a cut-back at the second
one (pNewDT = 0), computeYourself returns with pNewDT < 1 but the residual Pe
already holds the first Gauss point's accumulated contribution, so Pe is not
unmodified from its pre-call (zero) value. -/
theorem claim_C1_counterexample :
    ((computeYourself3 SectionType.Solid testResponse (fun _ => 0) (fun _ => 1)
      [gpO3, gpO3b] st3).2.p < 1) ∧
    (computeYourself3 SectionType.Solid testResponse (fun _ => 0) (fun _ => 1)
      [gpO3, gpO3b] st3).2.Pe ≠ st3.Pe := by
  have hzs : ((fun _ => (0 : ℚ)) + mulMV geomO3.B ((fun _ => 1) : Vec (1 * 3))) =
      fun _ => 3 := by
    funext i
    simp [mulMV_ones]
  have hstep0 : gpStep3 SectionType.Solid testResponse (fun _ => 1) gpO3
      st3.S st3.C st3.p =
      ({ gpO3 with stress := fun _ => 3, strain := fun _ => 3 },
        fun _ => 3, idMat6, 2) := by
    simp only [gpStep3, testResponse]
    norm_num [gpO3, gpZ3, st3, hzs, mulMV_ones]
    rfl
  have hnocut : ¬ (2 : ℚ) < 1 := by norm_num
  have hstep1 : gpStep3 SectionType.Solid testResponse (fun _ => 1) gpO3b
      (fun _ => 3) idMat6 2 =
      ({ gpO3b with
          stress := gpO3b.stress + fun _ => 3
          strain := gpO3b.strain + fun _ => 3 },
        gpO3b.stress + fun _ => 3, idMat6, 0) := by
    simp only [gpStep3, testResponse]
    norm_num [gpO3b, gpZ3b, gpZ3, mulMV_ones]
  have hrun : computeYourself3 SectionType.Solid testResponse (fun _ => 0)
      (fun _ => 1) [gpO3, gpO3b] st3 =
      (({ gpO3 with stress := fun _ => 3, strain := fun _ => 3 } :
          GaussPt 3 1) ::
        ({ gpO3b with
            stress := gpO3b.stress + fun _ => 3
            strain := gpO3b.strain + fun _ => 3 } : GaussPt 3 1) :: [],
        { Pe := accumPe gpO3.geometry.B (fun _ => 3) gpO3.geometry.intVol st3.Pe
          Ke := accumKe gpO3.geometry.B idMat6 gpO3.geometry.intVol st3.Ke
          S := gpO3b.stress + fun _ => 3
          C := idMat6
          p := 0 }) := by
    show kernelLoop (gpStep3 SectionType.Solid testResponse (fun _ => 1))
      [gpO3, gpO3b] st3 = _
    rw [kernelLoop_cons_nocut _ gpO3 [gpO3b] st3 _ _ _ _ hstep0 hnocut]
    rw [kernelLoop_cons_cut _ gpO3b [] _ _ _ _ _ hstep1 (by norm_num)]
  refine ⟨?_, ?_⟩
  · rw [hrun]
    norm_num
  · rw [hrun]
    intro heq
    have h0 := congrFun heq ⟨0, by norm_num⟩
    simp only [accumPe, mulMV, transposeM, gpO3, geomO3, geomZ3, gpZ3, gpO3b,
      gpZ3b, st3, one_mul] at h0
    rw [sum_const_fin] at h0
    norm_num at h0

/-- Claim C1 (amended): in every dimension, if during a computeYourself call
the material sets pNewDT to a value p' < 1 at a Gauss point g (reached after
a prefix pre processed without cut-back), the kernel returns immediately:
the returned residual Pe and tangent Ke are exactly the values accumulated
for the prefix (so GP g and all later Gauss points contribute nothing, but
the contributions of Gauss points before g remain and are not rolled back to
the pre-call values), the remaining Gauss points are not visited, and the
fraction p' written by the material is propagated to the caller unchanged. -/
theorem claim_C1 :
    (∀ (nNodes : ℕ) (mat : MaterialResponse) (ops : MechOps)
      (QT dQ : Vec (nNodes * 1)) (pre rest : List (GaussPt 1 nNodes))
      (g g' : GaussPt 1 nNodes) (st st₁ : KernelState 1 nNodes)
      (gps₁ : List (GaussPt 1 nNodes)) (S' : Vec (voigtSize 1))
      (C' : Mat (voigtSize 1) (voigtSize 1)) (p' : ℚ),
      computeYourself1 mat ops QT dQ pre st = (gps₁, st₁) →
      ¬ st₁.p < 1 →
      gpStep1 mat ops dQ g st₁.S st₁.C st₁.p = (g', S', C', p') →
      p' < 1 →
      computeYourself1 mat ops QT dQ (pre ++ g :: rest) st =
        (gps₁ ++ g' :: rest, { st₁ with S := S', C := C', p := p' })) ∧
    (∀ (nNodes : ℕ) (sec : SectionType) (mat : MaterialResponse)
      (ops : MechOps) (QT dQ : Vec (nNodes * 2))
      (pre rest : List (GaussPt 2 nNodes)) (g g' : GaussPt 2 nNodes)
      (st st₁ : KernelState 2 nNodes) (gps₁ : List (GaussPt 2 nNodes))
      (S' : Vec (voigtSize 2)) (C' : Mat (voigtSize 2) (voigtSize 2)) (p' : ℚ),
      computeYourself2 sec mat ops QT dQ pre st = (gps₁, st₁) →
      ¬ st₁.p < 1 →
      gpStep2 sec mat ops dQ g st₁.S st₁.C st₁.p = (g', S', C', p') →
      p' < 1 →
      computeYourself2 sec mat ops QT dQ (pre ++ g :: rest) st =
        (gps₁ ++ g' :: rest, { st₁ with S := S', C := C', p := p' })) ∧
    (∀ (nNodes : ℕ) (sec : SectionType) (mat : MaterialResponse)
      (QT dQ : Vec (nNodes * 3)) (pre rest : List (GaussPt 3 nNodes))
      (g g' : GaussPt 3 nNodes) (st st₁ : KernelState 3 nNodes)
      (gps₁ : List (GaussPt 3 nNodes)) (S' : Vec (voigtSize 3))
      (C' : Mat (voigtSize 3) (voigtSize 3)) (p' : ℚ),
      computeYourself3 sec mat QT dQ pre st = (gps₁, st₁) →
      ¬ st₁.p < 1 →
      gpStep3 sec mat dQ g st₁.S st₁.C st₁.p = (g', S', C', p') →
      p' < 1 →
      computeYourself3 sec mat QT dQ (pre ++ g :: rest) st =
        (gps₁ ++ g' :: rest, { st₁ with S := S', C := C', p := p' })) := by
  refine ⟨?_, ?_, ?_⟩
  · intro nNodes mat ops QT dQ pre rest g g' st st₁ gps₁ S' C' p' ho hp hr hcut
    exact kernelLoop_split (gpStep1 mat ops dQ) pre rest g g' st st₁ gps₁
      S' C' p' ho hp hr hcut
  · intro nNodes sec mat ops QT dQ pre rest g g' st st₁ gps₁ S' C' p' ho hp hr hcut
    exact kernelLoop_split (gpStep2 sec mat ops dQ) pre rest g g' st st₁ gps₁
      S' C' p' ho hp hr hcut
  · intro nNodes sec mat QT dQ pre rest g g' st st₁ gps₁ S' C' p' ho hp hr hcut
    exact kernelLoop_split (gpStep3 sec mat dQ) pre rest g g' st st₁ gps₁
      S' C' p' ho hp hr hcut

/-- Claim C1, witness: the 3D conjunct applied at an element with an empty
prefix and one cut-back Gauss point (zero B, so the symbolic terms stay
small); the hypotheses are discharged by rfl and norm_num. -/
theorem claim_C1_witness :
    computeYourself3 SectionType.Solid testResponse (fun _ => 0) (fun _ => 1)
      ([] ++ gpZ3b :: []) st3 =
      ([] ++ ({ gpZ3b with
          stress := gpZ3b.stress + mulMV gpZ3b.geometry.B fun _ => 1
          strain := gpZ3b.strain + mulMV gpZ3b.geometry.B fun _ => 1 } :
            GaussPt 3 1) :: [],
        { st3 with
          S := gpZ3b.stress + mulMV gpZ3b.geometry.B fun _ => 1
          C := idMat6
          p := 0 }) := by
  refine claim_C1.2.2 1 SectionType.Solid testResponse (fun _ => 0)
    (fun _ => 1) [] [] gpZ3b _ st3 st3 [] _ idMat6 0 rfl (by norm_num [st3])
    ?_ (by norm_num)
  simp only [gpStep3, testResponse]
  norm_num [gpZ3b, gpZ3, st3]

/-- Claim C9 (confirmed): when computeYourself returns early because the
material set pNewDT < 1 at a Gauss point g, no Gauss-point state is rolled
back: the returned list keeps the stepped states of every Gauss point up to
and including g (their stress is exactly what the material call wrote, and
for nDim = 2 and nDim = 3 their strain is the old strain plus the expanded
strain increment; for nDim = 1 the strain is untouched), and the Gauss points
after g are returned unchanged.  One conjunct per material dispatch path
(1D uniaxial; 2D plane stress; 2D plane strain; 3D solid). -/
theorem claim_C9 :
    (∀ (nNodes : ℕ) (mat : MaterialResponse) (ops : MechOps)
      (QT dQ : Vec (nNodes * 1)) (pre rest : List (GaussPt 1 nNodes))
      (g g' : GaussPt 1 nNodes) (st st₁ : KernelState 1 nNodes)
      (gps₁ : List (GaussPt 1 nNodes)) (S' : Vec (voigtSize 1))
      (C' : Mat (voigtSize 1) (voigtSize 1)) (p' : ℚ),
      computeYourself1 mat ops QT dQ pre st = (gps₁, st₁) →
      ¬ st₁.p < 1 →
      gpStep1 mat ops dQ g st₁.S st₁.C st₁.p = (g', S', C', p') →
      p' < 1 →
      (computeYourself1 mat ops QT dQ (pre ++ g :: rest) st).1 =
        gps₁ ++ g' :: rest ∧
      g'.stress = (mat.computeUniaxialStress g.stress
        (expandUniaxial (mulMV g.geometry.B dQ)) st₁.p).1 ∧
      g'.strain = g.strain) ∧
    (∀ (nNodes : ℕ) (mat : MaterialResponse) (ops : MechOps)
      (QT dQ : Vec (nNodes * 2)) (pre rest : List (GaussPt 2 nNodes))
      (g g' : GaussPt 2 nNodes) (st st₁ : KernelState 2 nNodes)
      (gps₁ : List (GaussPt 2 nNodes)) (S' : Vec (voigtSize 2))
      (C' : Mat (voigtSize 2) (voigtSize 2)) (p' : ℚ),
      computeYourself2 SectionType.PlaneStress mat ops QT dQ pre st = (gps₁, st₁) →
      ¬ st₁.p < 1 →
      gpStep2 SectionType.PlaneStress mat ops dQ g st₁.S st₁.C st₁.p = (g', S', C', p') →
      p' < 1 →
      (computeYourself2 SectionType.PlaneStress mat ops QT dQ (pre ++ g :: rest) st).1 =
        gps₁ ++ g' :: rest ∧
      g'.stress = (mat.computePlaneStress g.stress
        (ops.planeVoigtToVoigt (mulMV g.geometry.B dQ)) st₁.p).1 ∧
      g'.strain = g.strain + ops.planeVoigtToVoigt (mulMV g.geometry.B dQ)) ∧
    (∀ (nNodes : ℕ) (mat : MaterialResponse) (ops : MechOps)
      (QT dQ : Vec (nNodes * 2)) (pre rest : List (GaussPt 2 nNodes))
      (g g' : GaussPt 2 nNodes) (st st₁ : KernelState 2 nNodes)
      (gps₁ : List (GaussPt 2 nNodes)) (S' : Vec (voigtSize 2))
      (C' : Mat (voigtSize 2) (voigtSize 2)) (p' : ℚ),
      computeYourself2 SectionType.PlaneStrain mat ops QT dQ pre st = (gps₁, st₁) →
      ¬ st₁.p < 1 →
      gpStep2 SectionType.PlaneStrain mat ops dQ g st₁.S st₁.C st₁.p = (g', S', C', p') →
      p' < 1 →
      (computeYourself2 SectionType.PlaneStrain mat ops QT dQ (pre ++ g :: rest) st).1 =
        gps₁ ++ g' :: rest ∧
      g'.stress = (mat.computeStress g.stress
        (ops.planeVoigtToVoigt (mulMV g.geometry.B dQ)) st₁.p).1 ∧
      g'.strain = g.strain + ops.planeVoigtToVoigt (mulMV g.geometry.B dQ)) ∧
    (∀ (nNodes : ℕ) (mat : MaterialResponse) (QT dQ : Vec (nNodes * 3))
      (pre rest : List (GaussPt 3 nNodes)) (g g' : GaussPt 3 nNodes)
      (st st₁ : KernelState 3 nNodes) (gps₁ : List (GaussPt 3 nNodes))
      (S' : Vec (voigtSize 3)) (C' : Mat (voigtSize 3) (voigtSize 3)) (p' : ℚ),
      computeYourself3 SectionType.Solid mat QT dQ pre st = (gps₁, st₁) →
      ¬ st₁.p < 1 →
      gpStep3 SectionType.Solid mat dQ g st₁.S st₁.C st₁.p = (g', S', C', p') →
      p' < 1 →
      (computeYourself3 SectionType.Solid mat QT dQ (pre ++ g :: rest) st).1 =
        gps₁ ++ g' :: rest ∧
      g'.stress = (mat.computeStress g.stress (mulMV g.geometry.B dQ) st₁.p).1 ∧
      g'.strain = g.strain + mulMV g.geometry.B dQ) := by
  refine ⟨?_, ?_, ?_, ?_⟩
  · intro nNodes mat ops QT dQ pre rest g g' st st₁ gps₁ S' C' p' ho hp hr hcut
    have hg : g' = (gpStep1 mat ops dQ g st₁.S st₁.C st₁.p).1 := by rw [hr]
    refine ⟨?_, ?_, ?_⟩
    · exact congrArg Prod.fst (kernelLoop_split (gpStep1 mat ops dQ) pre rest
        g g' st st₁ gps₁ S' C' p' ho hp hr hcut)
    · rw [hg]; simp [gpStep1]
    · rw [hg]; simp [gpStep1]
  · intro nNodes mat ops QT dQ pre rest g g' st st₁ gps₁ S' C' p' ho hp hr hcut
    have hg : g' = (gpStep2 SectionType.PlaneStress mat ops dQ g
        st₁.S st₁.C st₁.p).1 := by rw [hr]
    refine ⟨?_, ?_, ?_⟩
    · exact congrArg Prod.fst (kernelLoop_split
        (gpStep2 SectionType.PlaneStress mat ops dQ) pre rest g g' st st₁ gps₁
        S' C' p' ho hp hr hcut)
    · rw [hg]; simp [gpStep2]
    · rw [hg]; simp [gpStep2]
  · intro nNodes mat ops QT dQ pre rest g g' st st₁ gps₁ S' C' p' ho hp hr hcut
    have hg : g' = (gpStep2 SectionType.PlaneStrain mat ops dQ g
        st₁.S st₁.C st₁.p).1 := by rw [hr]
    refine ⟨?_, ?_, ?_⟩
    · exact congrArg Prod.fst (kernelLoop_split
        (gpStep2 SectionType.PlaneStrain mat ops dQ) pre rest g g' st st₁ gps₁
        S' C' p' ho hp hr hcut)
    · rw [hg]; simp [gpStep2]
    · rw [hg]; simp [gpStep2]
  · intro nNodes mat QT dQ pre rest g g' st st₁ gps₁ S' C' p' ho hp hr hcut
    have hg : g' = (gpStep3 SectionType.Solid mat dQ g st₁.S st₁.C st₁.p).1 := by
      rw [hr]
    refine ⟨?_, ?_, ?_⟩
    · exact congrArg Prod.fst (kernelLoop_split
        (gpStep3 SectionType.Solid mat dQ) pre rest g g' st st₁ gps₁
        S' C' p' ho hp hr hcut)
    · rw [hg]; simp [gpStep3]
    · rw [hg]; simp [gpStep3]

/-- Claim C9, witness: the 3D solid conjunct applied at an element with an
empty prefix and one cut-back Gauss point. -/
theorem claim_C9_witness :
    (computeYourself3 SectionType.Solid testResponse (fun _ => 0) (fun _ => 1)
      ([] ++ gpZ3b :: []) st3).1 =
      [] ++ ({ gpZ3b with
          stress := gpZ3b.stress + mulMV gpZ3b.geometry.B fun _ => 1
          strain := gpZ3b.strain + mulMV gpZ3b.geometry.B fun _ => 1 } :
            GaussPt 3 1) :: [] ∧
    ({ gpZ3b with
        stress := gpZ3b.stress + mulMV gpZ3b.geometry.B fun _ => 1
        strain := gpZ3b.strain + mulMV gpZ3b.geometry.B fun _ => 1 } :
          GaussPt 3 1).stress =
      (testResponse.computeStress gpZ3b.stress
        (mulMV gpZ3b.geometry.B fun _ => 1) st3.p).1 ∧
    ({ gpZ3b with
        stress := gpZ3b.stress + mulMV gpZ3b.geometry.B fun _ => 1
        strain := gpZ3b.strain + mulMV gpZ3b.geometry.B fun _ => 1 } :
          GaussPt 3 1).strain =
      gpZ3b.strain + mulMV gpZ3b.geometry.B fun _ => 1 := by
  refine claim_C9.2.2.2 1 testResponse (fun _ => 0) (fun _ => 1) [] [] gpZ3b _
    st3 st3 [] (gpZ3b.stress + mulMV gpZ3b.geometry.B fun _ => 1) idMat6 0
    rfl (by norm_num [st3]) ?_ (by norm_num)
  simp only [gpStep3, testResponse]
  norm_num [gpZ3b, gpZ3, st3]

/-- Claim C2 (amended): computeYourself is the kernel loop over the
per-Gauss-point bodies gpStep1/gpStep2/gpStep3, and for every processed Gauss
point the stored total strain is updated by the body as follows: for nDim = 2
the strain is incremented by dE6 = planeVoigtToVoigt (B * dQ) and for
nDim = 3 by dE = B * dQ; for nDim = 1 the stored strain is left unchanged
(the 1D branch of the source never writes gaussPt.strain). -/
theorem claim_C2 :
    (∀ (nNodes : ℕ) (mat : MaterialResponse) (ops : MechOps)
      (dQ : Vec (nNodes * 1)) (gp : GaussPt 1 nNodes) (S : Vec (voigtSize 1))
      (C : Mat (voigtSize 1) (voigtSize 1)) (p : ℚ),
      (gpStep1 mat ops dQ gp S C p).1.strain = gp.strain) ∧
    (∀ (nNodes : ℕ) (sec : SectionType) (mat : MaterialResponse)
      (ops : MechOps) (dQ : Vec (nNodes * 2)) (gp : GaussPt 2 nNodes)
      (S : Vec (voigtSize 2)) (C : Mat (voigtSize 2) (voigtSize 2)) (p : ℚ),
      (gpStep2 sec mat ops dQ gp S C p).1.strain =
        gp.strain + ops.planeVoigtToVoigt (mulMV gp.geometry.B dQ)) ∧
    (∀ (nNodes : ℕ) (sec : SectionType) (mat : MaterialResponse)
      (dQ : Vec (nNodes * 3)) (gp : GaussPt 3 nNodes) (S : Vec (voigtSize 3))
      (C : Mat (voigtSize 3) (voigtSize 3)) (p : ℚ),
      (gpStep3 sec mat dQ gp S C p).1.strain =
        gp.strain + mulMV gp.geometry.B dQ) ∧
    (∀ (nNodes : ℕ) (mat : MaterialResponse) (ops : MechOps)
      (QT dQ : Vec (nNodes * 1)) (gps : List (GaussPt 1 nNodes))
      (st : KernelState 1 nNodes),
      computeYourself1 mat ops QT dQ gps st =
        kernelLoop (gpStep1 mat ops dQ) gps st) ∧
    (∀ (nNodes : ℕ) (sec : SectionType) (mat : MaterialResponse)
      (ops : MechOps) (QT dQ : Vec (nNodes * 2))
      (gps : List (GaussPt 2 nNodes)) (st : KernelState 2 nNodes),
      computeYourself2 sec mat ops QT dQ gps st =
        kernelLoop (gpStep2 sec mat ops dQ) gps st) ∧
    (∀ (nNodes : ℕ) (sec : SectionType) (mat : MaterialResponse)
      (QT dQ : Vec (nNodes * 3)) (gps : List (GaussPt 3 nNodes))
      (st : KernelState 3 nNodes),
      computeYourself3 sec mat QT dQ gps st =
        kernelLoop (gpStep3 sec mat dQ) gps st) := by
  refine ⟨?_, ?_, ?_, fun _ _ _ _ _ _ _ => rfl, fun _ _ _ _ _ _ _ _ => rfl,
    fun _ _ _ _ _ _ _ => rfl⟩
  · intro nNodes mat ops dQ gp S C p
    simp [gpStep1]
  · intro nNodes sec mat ops dQ gp S C p
    simp [gpStep2]
  · intro nNodes sec mat dQ gp S C p
    simp [gpStep3]

/-- Claim C2, counterexample: for nDim = 1, with a nonzero strain increment
(B and dQ all ones, so dE6 = expandUniaxial (B * dQ) has first component 1),
the Gauss point stored in the result of computeYourself still has its old
strain: it is not incremented by the expanded strain increment, contradicting
the claim for nDim = 1. -/
theorem claim_C2_counterexample :
    ((computeYourself1 testResponse testMech (fun _ => 0) (fun _ => 1)
      [gpO1] st1).1.head?).map GaussPt.strain ≠
      some (gpO1.strain +
        expandUniaxial (mulMV gpO1.geometry.B fun _ => 1)) := by
  have hhead : ((computeYourself1 testResponse testMech (fun _ => 0)
      (fun _ => 1) [gpO1] st1).1.head?).map GaussPt.strain =
      some gpO1.strain := by
    show (((kernelLoop (gpStep1 testResponse testMech fun _ => 1) [gpO1]
      st1).1.head?).map GaussPt.strain) = _
    by_cases hcut : (gpStep1 testResponse testMech (fun _ => 1) gpO1
        st1.S st1.C st1.p).2.2.2 < 1
    · rw [kernelLoop_cons_cut _ gpO1 [] st1 _ _ _ _ rfl hcut]
      simp [gpStep1]
    · rw [kernelLoop_cons_nocut _ gpO1 [] st1 _ _ _ _ rfl hcut]
      simp [gpStep1]
  rw [hhead]
  intro heq
  have h0 := congrFun (Option.some.inj heq) ⟨0, by norm_num⟩
  simp only [Pi.add_apply, expandUniaxial, gpO1, geomO1, mulMV, one_mul] at h0
  rw [sum_const_fin] at h0
  norm_num at h0

lemma assignStateVars_getElem (g len i : ℕ) (hi : i < g) :
    (assignStateVars g len)[i]? =
      some { matOff := i * (len / g - GaussPt.nRequiredStateVars +
               GaussPt.nRequiredStateVars)
             matLen := len / g - GaussPt.nRequiredStateVars
             stressOff := len / g - GaussPt.nRequiredStateVars +
               i * (len / g - GaussPt.nRequiredStateVars +
                 GaussPt.nRequiredStateVars)
             strainOff := len / g - GaussPt.nRequiredStateVars +
               i * (len / g - GaussPt.nRequiredStateVars +
                 GaussPt.nRequiredStateVars) + 6 } := by
  simp [assignStateVars, List.getElem?_map, List.getElem?_range, hi]

lemma assignStateVars_length (g len : ℕ) :
    (assignStateVars g len).length = g := by
  simp [assignStateVars]

/-- Claim C3, counterexample: a single-Gauss-point element whose material
requires 5 state variables, called with totalLength = 18, which is not a
multiple of (5 + 12) * 1 = 17: the call does not fail - it partitions the
buffer anyway, handing the material 18 / 1 - 12 = 6 state variables and
binding the stress and strain views at offsets 6 and 12. -/
theorem claim_C3_counterexample :
    ¬ ((testMaterial.requiredStateVars + GaussPt.nRequiredStateVars) * 1 ∣ 18) ∧
    assignStateVars 1 18 =
      [{ matOff := 0, matLen := 6, stressOff := 6, strainOff := 12 }] := by
  constructor
  · decide
  · decide

/-- Claim C3 (amended): assignStateVars performs no exact-multiple check on
totalLength: for any totalLength it partitions the buffer evenly across the
Gauss points by integer division, handing each material
totalLength / gpCount - 12 state variables; in particular, when totalLength =
(m + 12) * gpCount, Gauss point i's material block starts at i * (m + 12)
with length exactly m, its stress view at m + i * (m + 12), and its strain
view six doubles later, and one binding is produced per Gauss point. -/
theorem claim_C3 (g m len i : ℕ) (hg : 0 < g)
    (hlen : len = (m + GaussPt.nRequiredStateVars) * g) (hi : i < g) :
    (assignStateVars g len)[i]? =
      some { matOff := i * (m + 12), matLen := m, stressOff := m + i * (m + 12)
             strainOff := m + i * (m + 12) + 6 } ∧
    (assignStateVars g len).length = g := by
  have hdiv : len / g - GaussPt.nRequiredStateVars = m := by
    subst hlen
    rw [Nat.mul_div_cancel _ hg]
    simp [GaussPt.nRequiredStateVars]
  refine ⟨?_, assignStateVars_length g len⟩
  rw [assignStateVars_getElem g len i hi, hdiv]
  simp [GaussPt.nRequiredStateVars]

/-- Claim C3, witness: two Gauss points, material length 5, totalLength 34 =
(5 + 12) * 2; the bindings of Gauss point 1 are material [17, 22), stress [22, 28),
strain [28, 34). -/
theorem claim_C3_witness :
    (assignStateVars 2 34)[1]? =
      some { matOff := 17, matLen := 5, stressOff := 22, strainOff := 28 } ∧
    (assignStateVars 2 34).length = 2 := by
  have h := claim_C3 2 5 34 1 (by decide) (by decide) (by decide)
  simpa using h

lemma assignMaterials_length {nDim nNodes : ℕ} (factory : ℕ → Material) :
    ∀ (i : ℕ) (l : List (GaussPt nDim nNodes)),
      (assignMaterials factory i l).length = l.length
  | _, [] => rfl
  | i, _ :: rest => by
    simp [assignMaterials, assignMaterials_length factory (i + 1) rest]

/-- Claim C4 (confirmed): for every element with at least one Gauss point
whose material has been assigned (in this program materials are only ever
created by assignProperty(BftMaterialSection), which assigns one to every
Gauss point at once), getNumberOfRequiredStateVars returns exactly
(materialStateVars + 12) * gaussPointCount, where materialStateVars is the
required state-variable count of the Gauss point 0 material the source
dereferences. -/
theorem claim_C4 {nDim nNodes : ℕ} (factory : ℕ → Material)
    (gps : List (GaussPt nDim nNodes)) (h : gps ≠ []) :
    getNumberOfRequiredStateVars (assignPropertyMaterialSection factory gps) =
      some (((factory 0).requiredStateVars + 12) * gps.length) := by
  match gps, h with
  | gp :: rest, _ =>
    simp [getNumberOfRequiredStateVars, assignPropertyMaterialSection,
      assignMaterials, assignMaterials_length, GaussPt.nRequiredStateVars]

/-- Claim C4, witness: a one-Gauss-point element whose factory produces the
test material (5 required state variables): the result is (5 + 12) * 1 = 17. -/
theorem claim_C4_witness :
    getNumberOfRequiredStateVars
      (assignPropertyMaterialSection (fun _ => testMaterial) [gpZ3]) =
      some 17 := by
  have h := claim_C4 (fun _ => testMaterial) [gpZ3] (List.cons_ne_nil gpZ3 [])
  simpa [testMaterial] using h

/-- Claim C5 (confirmed): initializeYourself computes, for every Gauss point
(position k of the Gauss point list), with detJ = det (jacobian (dNdXi xi)):
for Solid sections an integrated volume weight * detJ and a characteristic
length cbrt (8 * detJ) forwarded to the material; for PlaneStress and
PlaneStrain sections weight * detJ * thickness and sqrt (4 * detJ); for
UniaxialStress sections weight * detJ * crossSection and 2 * detJ, where the
thickness and the cross-section are elementProperties[0]. -/
theorem claim_C5 {nDim nNodes : ℕ} (geo : GeoOps nDim nNodes) (mops : MathOps)
    (props : ℕ → ℚ) (gps : List (GaussPt nDim nNodes)) (k : ℕ)
    (gp : GaussPt nDim nNodes) (hk : gps[k]? = some gp) :
    (((initializeYourself geo mops SectionType.Solid props gps)[k]?).map
        (fun q => (q.geometry.intVol, q.material.map Material.charLen)) =
      some (gp.weight * geo.det (geo.jacobian (geo.dNdXi gp.xi)),
        gp.material.map fun _ =>
          some (mops.cbrt (8 * geo.det (geo.jacobian (geo.dNdXi gp.xi)))))) ∧
    (((initializeYourself geo mops SectionType.PlaneStress props gps)[k]?).map
        (fun q => (q.geometry.intVol, q.material.map Material.charLen)) =
      some (gp.weight * geo.det (geo.jacobian (geo.dNdXi gp.xi)) * props 0,
        gp.material.map fun _ =>
          some (mops.sqrt (4 * geo.det (geo.jacobian (geo.dNdXi gp.xi)))))) ∧
    (((initializeYourself geo mops SectionType.PlaneStrain props gps)[k]?).map
        (fun q => (q.geometry.intVol, q.material.map Material.charLen)) =
      some (gp.weight * geo.det (geo.jacobian (geo.dNdXi gp.xi)) * props 0,
        gp.material.map fun _ =>
          some (mops.sqrt (4 * geo.det (geo.jacobian (geo.dNdXi gp.xi)))))) ∧
    (((initializeYourself geo mops SectionType.UniaxialStress props gps)[k]?).map
        (fun q => (q.geometry.intVol, q.material.map Material.charLen)) =
      some (gp.weight * geo.det (geo.jacobian (geo.dNdXi gp.xi)) * props 0,
        gp.material.map fun _ =>
          some (2 * geo.det (geo.jacobian (geo.dNdXi gp.xi))))) := by
  refine ⟨?_, ?_, ?_, ?_⟩
  all_goals simp [initializeYourself, List.getElem?_map, hk, Option.map_map,
    Function.comp]
  all_goals cases gp.material <;> simp

/-- a concrete GeoOps 2 1 fixture: zero shape derivatives, identity-like
maps, det = 1, and coordAt the identity on the reference coordinate. -/
def testGeo2 : GeoOps 2 1 :=
  { dNdXi := fun _ => fun _ _ => 0
    jacobian := fun _ => fun _ _ => 0
    inverse := fun m => m
    det := fun _ => 1
    dNdX := fun d _ => d
    Bop := fun _ => fun _ _ => 0
    coordAt := fun xi => xi }

/-- Claim C5, witness: the theorem applied to a one-Gauss-point 2D element
with the concrete test geometry, for all four section types. -/
theorem claim_C5_witness :
    (((initializeYourself testGeo2 testMath SectionType.Solid (fun _ => 7)
        [gpZ2])[0]?).map
        (fun q => (q.geometry.intVol, q.material.map Material.charLen)) =
      some (gpZ2.weight * testGeo2.det (testGeo2.jacobian (testGeo2.dNdXi gpZ2.xi)),
        gpZ2.material.map fun _ =>
          some (testMath.cbrt (8 * testGeo2.det (testGeo2.jacobian (testGeo2.dNdXi gpZ2.xi)))))) ∧
    (((initializeYourself testGeo2 testMath SectionType.PlaneStress (fun _ => 7)
        [gpZ2])[0]?).map
        (fun q => (q.geometry.intVol, q.material.map Material.charLen)) =
      some (gpZ2.weight * testGeo2.det (testGeo2.jacobian (testGeo2.dNdXi gpZ2.xi)) * 7,
        gpZ2.material.map fun _ =>
          some (testMath.sqrt (4 * testGeo2.det (testGeo2.jacobian (testGeo2.dNdXi gpZ2.xi)))))) := by
  have h := claim_C5 testGeo2 testMath (fun _ => 7) [gpZ2] 0 gpZ2 rfl
  exact ⟨h.1, h.2.1⟩

/-- Claim C6 (confirmed): for any valid buffer partition (totalLength =
(m + 12) * gpCount), writing 6 stress values and 6 strain values into a
Gauss point's slots of the persistent buffer, rebinding the views via
assignStateVars over that buffer, and reading back through
getPermanentResultPointer with names stress and strain yields pointers of
reported length 6 = Vgt::VoigtSize through which the same 6 values are read
back. -/
theorem claim_C6 (g m i : ℕ) (buffer : ℕ → ℚ) (σs εs : Vec 6)
    (matLookup : String → Option (ℕ × ℕ)) (b : StateBinding)
    (hg : 0 < g) (hi : i < g)
    (hb : (assignStateVars g ((m + GaussPt.nRequiredStateVars) * g))[i]? =
      some b) :
    getPermanentResultPointer
        (assignStateVars g ((m + GaussPt.nRequiredStateVars) * g))
        matLookup stressName i = some (b.stressOff, 6) ∧
    getPermanentResultPointer
        (assignStateVars g ((m + GaussPt.nRequiredStateVars) * g))
        matLookup strainName i = some (b.strainOff, 6) ∧
    (∀ j : Fin 6,
      writeSlots (writeSlots buffer b.stressOff σs) b.strainOff εs
        (b.stressOff + (j : ℕ)) = σs j) ∧
    (∀ j : Fin 6,
      writeSlots (writeSlots buffer b.stressOff σs) b.strainOff εs
        (b.strainOff + (j : ℕ)) = εs j) := by
  have hdiv : ((m + GaussPt.nRequiredStateVars) * g) / g -
      GaussPt.nRequiredStateVars = m := by
    rw [Nat.mul_div_cancel _ hg]
    simp [GaussPt.nRequiredStateVars]
  have hget := assignStateVars_getElem g ((m + GaussPt.nRequiredStateVars) * g)
    i hi
  rw [hdiv] at hget
  rw [hget] at hb
  have hbe : b = { matOff := i * (m + GaussPt.nRequiredStateVars), matLen := m
                   stressOff := m + i * (m + GaussPt.nRequiredStateVars)
                   strainOff := m + i * (m + GaussPt.nRequiredStateVars) + 6 } :=
    (Option.some.inj hb).symm
  subst hbe
  refine ⟨?_, ?_, ?_, ?_⟩
  · simp [getPermanentResultPointer, hget, stressName, Vgt.VoigtSize]
  · simp [getPermanentResultPointer, hget, strainName, Vgt.VoigtSize]
  · intro j
    have hj := j.isLt
    dsimp only
    rw [writeSlots]
    rw [dif_neg (by omega)]
    rw [writeSlots]
    rw [dif_pos ⟨by omega, by omega⟩]
    congr 1
    exact Fin.ext (by simp)
  · intro j
    have hj := j.isLt
    dsimp only
    rw [writeSlots]
    rw [dif_pos ⟨by omega, by omega⟩]
    congr 1
    exact Fin.ext (by simp)

/-- Claim C6, witness: one Gauss point, material length 2, buffer of zeros,
stress values all 1 and strain values all 2; the read-back at slot 3 of each
window returns the written values through the reported (offset, 6) pointers. -/
theorem claim_C6_witness :
    getPermanentResultPointer
        (assignStateVars 1 ((2 + GaussPt.nRequiredStateVars) * 1))
        (fun _ => none) stressName 0 =
      some (((2 : ℕ) + 0 * (2 + GaussPt.nRequiredStateVars), 6)) ∧
    getPermanentResultPointer
        (assignStateVars 1 ((2 + GaussPt.nRequiredStateVars) * 1))
        (fun _ => none) strainName 0 =
      some (((2 : ℕ) + 0 * (2 + GaussPt.nRequiredStateVars) + 6, 6)) ∧
    writeSlots (writeSlots (fun _ => 0) (2 + 0 * (2 + GaussPt.nRequiredStateVars))
        (fun _ => 1)) (2 + 0 * (2 + GaussPt.nRequiredStateVars) + 6) (fun _ => 2)
        ((2 + 0 * (2 + GaussPt.nRequiredStateVars)) + ((3 : Fin 6) : ℕ)) = 1 ∧
    writeSlots (writeSlots (fun _ => 0) (2 + 0 * (2 + GaussPt.nRequiredStateVars))
        (fun _ => 1)) (2 + 0 * (2 + GaussPt.nRequiredStateVars) + 6) (fun _ => 2)
        ((2 + 0 * (2 + GaussPt.nRequiredStateVars) + 6) + ((3 : Fin 6) : ℕ)) = 2 := by
  have h := claim_C6 1 2 0 (fun _ => 0) (fun _ => 1) (fun _ => 2)
    (fun _ => none)
    { matOff := 0 * (2 + GaussPt.nRequiredStateVars), matLen := 2
      stressOff := 2 + 0 * (2 + GaussPt.nRequiredStateVars)
      strainOff := 2 + 0 * (2 + GaussPt.nRequiredStateVars) + 6 }
    (by decide) (by decide) (by decide)
  exact ⟨h.1, h.2.1, h.2.2.1 3, h.2.2.2 3⟩

/-- Claim C7 (confirmed): computeDistributedLoad called with any load type
other than Pressure fails with the std::invalid_argument "Invalid Load Type
specified" (an unsupported-operation failure), and in that case the output
load vector P is not mutated: the call returns P unchanged together with the
exception message. -/
theorem claim_C7 {nDim nNodes bsize : ℕ} (bops : BoundaryOps nDim nNodes bsize)
    (props : ℕ → ℚ) (loadType : DistributedLoadTypes) (P : Vec (nNodes * nDim))
    (elementFace : ℕ) (load : ℕ → ℚ)
    (h : loadType ≠ DistributedLoadTypes.Pressure) :
    computeDistributedLoad bops props loadType P elementFace load =
      (P, some invalidLoadMsg) := by
  match loadType, h with
  | DistributedLoadTypes.OtherLoad c, _ => rfl

/-- a concrete BoundaryOps 2 1 fixture for the witnesses. -/
def testBops : BoundaryOps 2 1 1 :=
  { computeNormalLoadVector := fun _ => fun _ => 1
    assembleIntoParentVector := fun _ _ P => P }

/-- Claim C7, witness: an unsupported load type (OtherLoad 0, standing for
e.g. a thermal flux type) at a concrete 2D element: the call returns the
unchanged load vector and the invalid-argument message. -/
theorem claim_C7_witness :
    computeDistributedLoad testBops (fun _ => 0)
      (DistributedLoadTypes.OtherLoad 0) (fun _ => 3) 2 (fun _ => 5) =
      ((fun _ => 3), some invalidLoadMsg) :=
  claim_C7 testBops (fun _ => 0) (DistributedLoadTypes.OtherLoad 0)
    (fun _ => 3) 2 (fun _ => 5) (by simp)

/-- Claim C8 (confirmed): setInitialConditions(GeostaticStress, values) with
nDim > 1 sets, for every Gauss point (position k), stress(1) to
linearInterpolation evaluated at the Gauss point's physical y-coordinate
(component 1 of coordAt xi) between (values[1], values[0]) and
(values[3], values[2]), stress(0) to values[4] * stress(1) and stress(2) to
values[5] * stress(1), following the payload layout
values = (sigma_y1, y1, sigma_y2, y2, ratio_x, ratio_z). -/
theorem claim_C8 {nDim nNodes : ℕ} (geo : GeoOps nDim nNodes) (mops : MathOps)
    (values : Fin 6 → ℚ) (gps : List (GaussPt nDim nNodes)) (k : ℕ)
    (gp : GaussPt nDim nNodes) (h1 : 1 < nDim) (hk : gps[k]? = some gp) :
    ((setInitialConditions geo mops StateTypes.GeostaticStress values
        gps)[k]?).map
        (fun q => (q.stress ⟨0, by omega⟩, q.stress ⟨1, by omega⟩,
          q.stress ⟨2, by omega⟩)) =
      some (values 4 * mops.linearInterpolation (geo.coordAt gp.xi ⟨1, h1⟩)
          (values 1) (values 3) (values 0) (values 2),
        mops.linearInterpolation (geo.coordAt gp.xi ⟨1, h1⟩)
          (values 1) (values 3) (values 0) (values 2),
        values 5 * mops.linearInterpolation (geo.coordAt gp.xi ⟨1, h1⟩)
          (values 1) (values 3) (values 0) (values 2)) := by
  simp [setInitialConditions, h1, List.getElem?_map, hk]

/-- Claim C8, witness: the theorem applied to a one-Gauss-point 2D element
with the concrete test geometry and test math helpers. -/
theorem claim_C8_witness :
    ((setInitialConditions testGeo2 testMath StateTypes.GeostaticStress
        (fun j => (j : ℚ) + 1) [gpZ2])[0]?).map
        (fun q => (q.stress ⟨0, by omega⟩, q.stress ⟨1, by omega⟩,
          q.stress ⟨2, by omega⟩)) =
      some ((fun j : Fin 6 => (j : ℚ) + 1) 4 *
          testMath.linearInterpolation
            (testGeo2.coordAt gpZ2.xi ⟨1, by omega⟩)
            ((fun j : Fin 6 => (j : ℚ) + 1) 1) ((fun j : Fin 6 => (j : ℚ) + 1) 3)
            ((fun j : Fin 6 => (j : ℚ) + 1) 0) ((fun j : Fin 6 => (j : ℚ) + 1) 2),
        testMath.linearInterpolation (testGeo2.coordAt gpZ2.xi ⟨1, by omega⟩)
          ((fun j : Fin 6 => (j : ℚ) + 1) 1) ((fun j : Fin 6 => (j : ℚ) + 1) 3)
          ((fun j : Fin 6 => (j : ℚ) + 1) 0) ((fun j : Fin 6 => (j : ℚ) + 1) 2),
        (fun j : Fin 6 => (j : ℚ) + 1) 5 *
          testMath.linearInterpolation
            (testGeo2.coordAt gpZ2.xi ⟨1, by omega⟩)
            ((fun j : Fin 6 => (j : ℚ) + 1) 1) ((fun j : Fin 6 => (j : ℚ) + 1) 3)
            ((fun j : Fin 6 => (j : ℚ) + 1) 0) ((fun j : Fin 6 => (j : ℚ) + 1) 2)) :=
  claim_C8 testGeo2 testMath (fun j => (j : ℚ) + 1) [gpZ2] 0 gpZ2
    (by omega) rfl

/-- Claim C10 (confirmed): setInitialConditions called with any state type
other than GeostaticStress, or with GeostaticStress when nDim = 1, returns
normally (the source raises nothing on these paths) and leaves every Gauss
point - in particular every stress and strain vector - unchanged. -/
theorem claim_C10 {nDim nNodes : ℕ} (geo : GeoOps nDim nNodes)
    (mops : MathOps) (values : Fin 6 → ℚ) (gps : List (GaussPt nDim nNodes))
    (state : StateTypes)
    (h : state ≠ StateTypes.GeostaticStress ∨ nDim = 1) :
    setInitialConditions geo mops state values gps = gps := by
  match state, h with
  | StateTypes.OtherState c, _ => rfl
  | StateTypes.GeostaticStress, h =>
    have h1 : nDim = 1 := h.resolve_left (by simp)
    subst h1
    simp [setInitialConditions]

/-- Claim C10, witness: a non-geostatic state type at a 2D element leaves the
Gauss points untouched. -/
theorem claim_C10_witness :
    setInitialConditions testGeo2 testMath (StateTypes.OtherState 7)
      (fun _ => 1) [gpZ2] = [gpZ2] :=
  claim_C10 testGeo2 testMath (fun _ => 1) [gpZ2] (StateTypes.OtherState 7)
    (Or.inl (by simp))

end UelDisp
